import Mathlib

/-!
Verification of the Sandkasten Python SDK (sdk/python/sandkasten): a shallow
embedding of the client's pure decision logic — JSON request/response
construction and decoding, SSE stream parsing, base64 file transfer, and the
upload control flow — with theorems checking the spec's claims against it.

Python exceptions are modelled as an `Except PyErr` result; a Python `dict`
whose relevant values are well-typed is modelled as a structure of `Option`
fields (`none` = key absent); bytes are `Nat` values `< 256`.
-/

namespace Sandkasten

/-- The exceptions the SDK's operations can raise.  `sandkastenAPIError` and
`streamError` mirror `exceptions.py` (`SandkastenAPIError`,
`SandkastenStreamError`); `httpStatusError` is `httpx.HTTPStatusError` as
raised by `resp.raise_for_status()` (it carries the response, hence the HTTP
status code and raw body); `transportError` is an `httpx.TransportError`
raised before any HTTP status was obtained; the rest are Python builtins. -/
inductive PyErr where
  | attributeError (msg : String)
  | keyError (key : String)
  | valueError (msg : String)
  | fileNotFoundError (msg : String)
  | binasciiError (msg : String)
  | httpStatusError (status : Nat) (body : String)
  | transportError (msg : String)
  | sandkastenAPIError (message : String) (status_code : Option Nat) (response_body : Option String)
  | streamError (msg : String)
deriving Repr, DecidableEq

/-- Membership in the SDK's own typed exception hierarchy of `exceptions.py`:
`SandkastenError` and its subclasses `SandkastenAPIError` and
`SandkastenStreamError`.  `httpx` exceptions and Python builtins are not
subclasses of `SandkastenError`. -/
def PyErr.isSandkastenError : PyErr → Bool
  | .sandkastenAPIError _ _ _ => true
  | .streamError _ => true
  | _ => false

/-- `resp.raise_for_status()` from httpx: returns normally on a 2xx status,
raises `HTTPStatusError` carrying the response (status code and body) on any
other status. -/
def raiseForStatus (status : Nat) (body : String) : Except PyErr Unit :=
  if 200 ≤ status ∧ status < 300 then Except.ok () else Except.error (.httpStatusError status body)

/-- A JSON value, as far as the request bodies built by the client need:
the client only ever puts strings, integers and booleans into payloads,
but `null` must be representable to state that it never sends one. -/
inductive JVal where
  | str (s : String)
  | int (n : Int)
  | bool (b : Bool)
  | null
deriving Repr, DecidableEq

/-- Whether a JSON value is the explicit `null`. -/
def JVal.isNull : JVal → Bool
  | .null => true
  | _ => false

/-- The `SessionInfo` dataclass of `types.py` (fields in source order;
`workspace_id`, `container_id`, `last_activity` default to `None`). -/
structure SessionInfo where
  id : String
  image : String
  status : String
  cwd : String
  created_at : String
  expires_at : String
  workspace_id : Option String := none
  container_id : Option String := none
  last_activity : Option String := none
deriving Repr, DecidableEq

/-- A decoded JSON session record as the server sends it: each field is
`some v` when the key is present with string value `v`, `none` when the key
is absent. -/
structure SessionRecord where
  id : Option String := none
  image : Option String := none
  container_id : Option String := none
  status : Option String := none
  cwd : Option String := none
  created_at : Option String := none
  expires_at : Option String := none
  last_activity : Option String := none
  workspace_id : Option String := none
deriving Repr, DecidableEq

/-- Python `d[key]` on a dict: the value when the key is present, otherwise
a `KeyError` naming the key. -/
def getItem {α : Type} (v : Option α) (key : String) : Except PyErr α :=
  match v with
  | some x => Except.ok x
  | none => Except.error (.keyError key)

/-- Python truthiness of an optional string: `None` and `""` are falsy. -/
def pyTruthy : Option String → Bool
  | none => false
  | some s => decide (s ≠ "")

/-- Python `a or b` on optional strings: `a` when truthy, else `b`. -/
def pyOr (a b : Option String) : Option String :=
  if pyTruthy a then a else b

/-- `data.get("workspace_id") or None` in `_parse_session_info`
(`types.py` line 127): an absent key gives `None`, and a falsy present
value (the empty string) is also turned into `None`. -/
def getWorkspaceIdOrNone (v : Option String) : Option String :=
  if pyTruthy v then v else none

/-- `_parse_session_info` (`types.py` lines 118-130): required fields by
subscript (raising `KeyError` when absent), optional fields via `.get`,
with `workspace_id` additionally passed through `or None`. -/
def _parse_session_info (data : SessionRecord) : Except PyErr SessionInfo := do
  let id ← getItem data.id "id"
  let image ← getItem data.image "image"
  let status ← getItem data.status "status"
  let cwd ← getItem data.cwd "cwd"
  let created_at ← getItem data.created_at "created_at"
  let expires_at ← getItem data.expires_at "expires_at"
  Except.ok { id, image, status, cwd, created_at, expires_at,
              workspace_id := getWorkspaceIdOrNone data.workspace_id,
              container_id := data.container_id,
              last_activity := data.last_activity }

/-- The JSON document returned by `GET /v1/sessions`: either a bare array of
session records, or an object whose `sessions` key (when present) holds the
records. -/
inductive SessionsJson where
  | arr (records : List SessionRecord)
  | obj (sessions : Option (List SessionRecord))
deriving Repr, DecidableEq

/-- `data.get("sessions", [])` in `client.py` line 138: on a dict it returns
the `sessions` value or the default `[]`; on a bare JSON array `data` is a
Python `list`, which has no `get` method, so an `AttributeError` is raised. -/
def sessionsGet : SessionsJson → Except PyErr (List SessionRecord)
  | .arr _ => Except.error (.attributeError "list object has no attribute get")
  | .obj sessions => Except.ok (sessions.getD [])

/-- One record of the list comprehension in `SandboxClient.list_sessions`
(`client.py` lines 128-137): every field, including `container_id` and
`last_activity`, is read by subscript `s[...]` in the keyword-argument order
of the `SessionInfo(...)` call; `workspace_id` is not passed and takes its
dataclass default. -/
def listSessionsRecord (s : SessionRecord) : Except PyErr SessionInfo := do
  let id ← getItem s.id "id"
  let image ← getItem s.image "image"
  let container_id ← getItem s.container_id "container_id"
  let status ← getItem s.status "status"
  let cwd ← getItem s.cwd "cwd"
  let created_at ← getItem s.created_at "created_at"
  let expires_at ← getItem s.expires_at "expires_at"
  let last_activity ← getItem s.last_activity "last_activity"
  Except.ok { id, image, status, cwd, created_at, expires_at,
              container_id := some container_id,
              last_activity := some last_activity }

/-- The decoding step of `SandboxClient.list_sessions` (`client.py` lines
125-139) applied to the parsed response document. -/
def list_sessions_decode (data : SessionsJson) : Except PyErr (List SessionInfo) := do
  let records ← sessionsGet data
  records.mapM listSessionsRecord

/-- `SandboxClient.list_sessions` (`client.py` lines 112-139): raise for a
non-2xx status, then decode the JSON document. -/
def list_sessions_run (status : Nat) (body : String) (json : SessionsJson) :
    Except PyErr (List SessionInfo) := do
  raiseForStatus status body
  list_sessions_decode json

/-- The request payload built by `SandboxClient.create_session` (`client.py`
lines 79-83): `{"image": image}`, with `ttl_seconds` added only when the
argument is not `None`, then `workspace_id` added only when not `None`. -/
def createSessionPayload (image : String) (ttl_seconds : Option Int)
    (workspace_id : Option String) : List (String × JVal) :=
  let payload := [("image", JVal.str image)]
  let payload := match ttl_seconds with
    | some t => payload ++ [("ttl_seconds", JVal.int t)]
    | none => payload
  match workspace_id with
  | some w => payload ++ [("workspace_id", JVal.str w)]
  | none => payload

/-- `SandboxClient.create_session` (`client.py` lines 48-89): the payload it
sends, and the result of `raise_for_status` plus reading `data["id"]` from
the parsed response body. -/
def create_session (image : String) (ttl_seconds : Option Int) (workspace_id : Option String)
    (status : Nat) (body : String) (json : SessionRecord) :
    List (String × JVal) × Except PyErr String :=
  (createSessionPayload image ttl_seconds workspace_id,
   do
     raiseForStatus status body
     getItem json.id "id")

/-- The `ExecChunk` dataclass of `types.py` (defaults as in source:
`done=False`, `exit_code=0`, `cwd=""`, `duration_ms=0`). -/
structure ExecChunk where
  output : String
  timestamp : Int
  done : Bool := false
  exit_code : Int := 0
  cwd : String := ""
  duration_ms : Int := 0
deriving Repr, DecidableEq

/-- The `json.loads` result of one SSE `data:` line, as far as
`Session.exec_stream` reads it: each field is `some v` when the key is
present (with a well-typed value), `none` when absent — `data.get(k, d)`
becomes `getD d`. -/
structure JPayload where
  chunk : Option String := none
  timestamp : Option Int := none
  exit_code : Option Int := none
  cwd : Option String := none
  duration_ms : Option Int := none
  error : Option String := none
deriving Repr, DecidableEq

/-- One line of the SSE response body, classified the way the loop in
`Session.exec_stream` (`session.py` lines 132-143) classifies it:
`event t` is a line `event: <t>` (with `t` already stripped), `data p` is a
line `data: <json>` whose payload parses to `p`, `blank` is a line that is
empty after `strip()`, and `other` is any other non-blank line (which the
loop falls through without touching). -/
inductive SSELine where
  | event (t : String)
  | data (p : JPayload)
  | blank
  | other (s : String)
deriving Repr, DecidableEq

/-- One iteration of the `async for line in resp.aiter_lines()` loop of
`Session.exec_stream` (`session.py` lines 132-161), given the current
`event_type` state: returns the new `event_type`, the chunks yielded by this
line (at most one), and `some msg` when the line raises
`SandkastenStreamError(msg)`. -/
def execStreamStep (event_type : String) : SSELine → String × List ExecChunk × Option String
  | .blank => (event_type, [], none)
  | .event t => (t, [], none)
  | .other _ => (event_type, [], none)
  | .data p =>
    if event_type = "chunk" then
      (event_type, [{ output := p.chunk.getD "", timestamp := p.timestamp.getD 0,
                      done := false }], none)
    else if event_type = "done" then
      (event_type, [{ output := "", timestamp := 0, done := true,
                      exit_code := p.exit_code.getD 0, cwd := p.cwd.getD "",
                      duration_ms := p.duration_ms.getD 0 }], none)
    else if event_type = "error" then
      (event_type, [], some (p.error.getD "Unknown error"))
    else
      (event_type, [], none)

/-- The whole loop of `Session.exec_stream` run from state `event_type` over
the remaining lines: the list of yielded chunks and, when a
`SandkastenStreamError` is raised, its message — iteration stops there, as a
raised exception ends the Python generator. -/
def execStreamLoop : String → List SSELine → List ExecChunk × Option String
  | _, [] => ([], none)
  | event_type, line :: rest =>
    match execStreamStep event_type line with
    | (event_type', chunks, none) =>
      let r := execStreamLoop event_type' rest
      (chunks ++ r.1, r.2)
    | (_, chunks, some msg) => (chunks, some msg)

/-- `Session.exec_stream` on a transcript of SSE lines: the loop started with
`event_type = ""` (`session.py` line 131). -/
def exec_stream (lines : List SSELine) : List ExecChunk × Option String :=
  execStreamLoop "" lines

/-- The `event_type` state after the loop of `Session.exec_stream` has
consumed the given lines, starting from state `event_type`. -/
def trackEventType (event_type : String) : List SSELine → String
  | [] => event_type
  | line :: rest => trackEventType (execStreamStep event_type line).1 rest

/-- The input to `Session.upload` (`session.py` line 239), resolved the way
the code's runtime probes resolve it: `fileLike nameAttr` is an object with a
`read` attribute whose `getattr(f, "name", None)` is `nameAttr`; `pathRef p
isFile` is a `str`/`Path` argument for which `Path(p).is_file()` returns
`isFile`. -/
inductive UploadFile where
  | fileLike (nameAttr : Option String)
  | pathRef (p : String) (isFile : Bool)
deriving Repr, DecidableEq

/-- The outcome of the one `POST .../fs/upload` exchange, as the environment
presents it to the client: a response with its status, raw body and parsed
`paths` field, or a transport failure before any HTTP status was obtained. -/
inductive NetOutcome where
  | resp (status : Nat) (body : String) (paths : Option (List String))
  | transport (msg : String)
deriving Repr, DecidableEq

/-- A local-filesystem event of one `upload` call: `opened h` / `closed h`
for the handle `path.open("rb")` returns, `posted fname` for the multipart
POST (with the multipart filename). -/
inductive FsEvent where
  | opened (h : Nat)
  | closed (h : Nat)
  | posted (fname : String)
deriving Repr, DecidableEq

/-- Whether an event is the network POST. -/
def FsEvent.isPost : FsEvent → Bool
  | .posted _ => true
  | _ => false

/-- `Path(name).name`: the text after the last `/`. -/
def pathName (p : String) : String :=
  ⟨p.data.foldl (fun acc c => if c = '/' then [] else acc ++ [c]) []⟩

/-- The POST of `upload` and the response handling that follows it
(`session.py` lines 278-285): `raise_for_status`, then
`data.get("paths", [])`; a transport failure raises before any status. -/
def uploadNetwork : NetOutcome → Except PyErr (List String)
  | .transport msg => Except.error (.transportError msg)
  | .resp status body paths => do
    raiseForStatus status body
    Except.ok (paths.getD [])

/-- The `try` body of `Session.upload` (`session.py` lines 263-285): its
result, the `to_close` variable (the handle opened by `upload` itself, when
the path branch opened one), and the filesystem events so far, in order. -/
def uploadBody (file : UploadFile) (filename : Option String) (net : NetOutcome) :
    Except PyErr (List String) × Option Nat × List FsEvent :=
  match file with
  | .fileLike nameAttr =>
    let name := pyOr filename nameAttr
    if pyTruthy name then
      (uploadNetwork net, none, [.posted (pathName (name.getD ""))])
    else
      (Except.error (.valueError "filename required when uploading file-like object"),
       none, [])
  | .pathRef p isFile =>
    if isFile then
      (uploadNetwork net, some 0, [.opened 0, .posted (pathName p)])
    else
      (Except.error (.fileNotFoundError ("File not found: " ++ p)), none, [])

/-- `Session.upload` (`session.py` lines 237-288): the `try` body, then the
`finally` clause, which closes `to_close` whenever it is not `None`,
regardless of how the body exited. -/
def upload (file : UploadFile) (filename : Option String) (net : NetOutcome) :
    Except PyErr (List String) × List FsEvent :=
  let (r, to_close, events) := uploadBody file filename net
  match to_close with
  | some h => (r, events ++ [.closed h])
  | none => (r, events)

/-- Every handle opened during the call has been closed by the end of it. -/
def handlesClosed (events : List FsEvent) : Bool :=
  events.all fun e =>
    match e with
    | .opened h => events.contains (.closed h)
    | _ => true

/-- The standard base64 alphabet (RFC 4648) that Python's
`base64.b64encode`/`b64decode` use: value 0 ↦ `A`, …, 63 ↦ `/`. -/
def b64Alphabet : List Char :=
  ['A', 'B', 'C', 'D', 'E', 'F', 'G', 'H', 'I', 'J', 'K', 'L', 'M',
   'N', 'O', 'P', 'Q', 'R', 'S', 'T', 'U', 'V', 'W', 'X', 'Y', 'Z',
   'a', 'b', 'c', 'd', 'e', 'f', 'g', 'h', 'i', 'j', 'k', 'l', 'm',
   'n', 'o', 'p', 'q', 'r', 's', 't', 'u', 'v', 'w', 'x', 'y', 'z',
   '0', '1', '2', '3', '4', '5', '6', '7', '8', '9', '+', '/']

/-- The alphabet character of a six-bit value. -/
def sextetChar (n : Nat) : Char :=
  b64Alphabet.getD n '?'

/-- First index of a character in a list, or `none`. -/
def idxOf : List Char → Char → Nat → Option Nat
  | [], _, _ => none
  | a :: rest, c, i => if a = c then some i else idxOf rest c (i + 1)

/-- The six-bit value of an alphabet character, `none` for a character
outside the alphabet (in particular for the padding `=`). -/
def charSextet (c : Char) : Option Nat :=
  idxOf b64Alphabet c 0

/-- `base64.b64encode` on a byte sequence: each group of three bytes becomes
four alphabet characters; a final group of two or one bytes is padded with
one or two `=`. -/
def b64EncodeChunks : List Nat → List Char
  | a :: b :: c :: rest =>
    sextetChar (a / 4) :: sextetChar (a % 4 * 16 + b / 16) ::
    sextetChar (b % 16 * 4 + c / 64) :: sextetChar (c % 64) :: b64EncodeChunks rest
  | [a, b] =>
    [sextetChar (a / 4), sextetChar (a % 4 * 16 + b / 16), sextetChar (b % 16 * 4), '=']
  | [a] =>
    [sextetChar (a / 4), sextetChar (a % 4 * 16), '=', '=']
  | [] => []

/-- `base64.b64decode` on a character sequence: groups of four characters are
mapped back through the alphabet and reassembled into three bytes each;
`=` padding is accepted only at the end of the final group; any other shape
(wrong length, character outside the alphabet, padding mid-stream) fails. -/
def b64DecodeChunks : List Char → Option (List Nat)
  | [] => some []
  | c1 :: c2 :: c3 :: c4 :: rest =>
    match charSextet c1, charSextet c2 with
    | some s1, some s2 =>
      if c3 = '=' then
        if c4 = '=' ∧ rest = [] then some [s1 * 4 + s2 / 16] else none
      else
        match charSextet c3 with
        | some s3 =>
          if c4 = '=' then
            if rest = [] then some [s1 * 4 + s2 / 16, s2 % 16 * 16 + s3 / 4] else none
          else
            match charSextet c4, b64DecodeChunks rest with
            | some s4, some bs =>
              some ((s1 * 4 + s2 / 16) :: (s2 % 16 * 16 + s3 / 4) :: (s3 % 4 * 64 + s4) :: bs)
            | _, _ => none
        | none => none
    | _, _ => none
  | _ => none

/-- `base64.b64encode(content).decode("ascii")` (`session.py` line 190). -/
def b64encode (bs : List Nat) : String :=
  ⟨b64EncodeChunks bs⟩

/-- `base64.b64decode(s)` (`session.py` line 230); `none` models the
`binascii.Error` raised on invalid input. -/
def b64decode (s : String) : Option (List Nat) :=
  b64DecodeChunks s.data

/-- The UTF-8 encoding of one character, as `str.encode("utf-8")` produces
it. -/
def utf8EncodeChar (c : Char) : List Nat :=
  let n := c.toNat
  if n < 128 then [n]
  else if n < 2048 then [192 + n / 64, 128 + n % 64]
  else if n < 65536 then [224 + n / 4096, 128 + n / 64 % 64, 128 + n % 64]
  else [240 + n / 262144, 128 + n / 4096 % 64, 128 + n / 64 % 64, 128 + n % 64]

/-- `str.encode("utf-8")`. -/
def utf8Encode (s : String) : List Nat :=
  (s.data.map utf8EncodeChar).flatten

/-- The `content` argument of `Session.write`: `str` or `bytes`. -/
inductive WriteContent where
  | text (s : String)
  | bytes (b : List Nat)
deriving Repr, DecidableEq

/-- `Session.write`'s content normalization (`session.py` lines 183-184):
text is encoded as UTF-8, bytes pass through. -/
def contentBytes : WriteContent → List Nat
  | .text s => utf8Encode s
  | .bytes b => b

/-- The JSON body `Session.write` POSTs (`session.py` lines 186-192):
the path and the base64-encoded content. -/
structure WriteRequest where
  path : String
  content_base64 : String
deriving Repr, DecidableEq

/-- `Session.write` (`session.py` lines 163-193): the request body it
sends. -/
def session_write (path : String) (content : WriteContent) : WriteRequest :=
  { path, content_base64 := b64encode (contentBytes content) }

/-- The `ReadResult` dataclass of `types.py`, with file content as bytes. -/
structure ReadResult where
  content : List Nat
  path : String
  truncated : Bool
deriving Repr, DecidableEq

/-- The response to `GET .../fs/read`: HTTP status, raw body, and the parsed
JSON fields `Session.read` looks at (`none` = key absent). -/
structure ReadResponse where
  status : Nat
  body : String
  path : Option String := none
  content_base64 : Option String := none
  truncated : Option Bool := none
deriving Repr, DecidableEq

/-- `Session.read` (`session.py` lines 195-235): the query parameters it
sends (`max_bytes` only when given), and the decoding of the response:
`raise_for_status`, `data["content_base64"]` by subscript, base64 decoding
(`binascii.Error` on invalid input), then the `ReadResult` with
`data.get("path", path)` and `data.get("truncated", False)`. -/
def session_read (path : String) (max_bytes : Option Nat) (resp : ReadResponse) :
    List (String × JVal) × Except PyErr ReadResult :=
  let params := [("path", JVal.str path)] ++
    (match max_bytes with
     | some m => [("max_bytes", JVal.int m)]
     | none => [])
  (params,
   do
     raiseForStatus resp.status resp.body
     let cb ← getItem resp.content_base64 "content_base64"
     let content ← match b64decode cb with
       | some bs => Except.ok bs
       | none => Except.error (.binasciiError "Invalid base64-encoded string")
     Except.ok { content, path := resp.path.getD path, truncated := resp.truncated.getD false })

/-- Writing bytes `b` to `p` with `Session.write` and then reading `p` back
with `Session.read` and no `max_bytes` cap, against a server that stores and
returns the transferred `content_base64` unchanged (status 200, no
truncation). -/
def write_read_roundtrip (p : String) (b : List Nat) : Except PyErr ReadResult :=
  let wreq := session_write p (.bytes b)
  (session_read p none
    { status := 200, body := "", path := some p,
      content_base64 := some wreq.content_base64, truncated := some false }).2

/-- Whether a payload contains a given key. -/
def hasKey (payload : List (String × JVal)) (k : String) : Bool :=
  payload.any fun kv => decide (kv.1 = k)

/-- The minimal session record of the SDK's own tests
(`test_list_sessions_raw_array`, `test_parse_session_info_minimal`): all
required fields present, `container_id`, `last_activity` and `workspace_id`
absent. -/
def minimalRecord : SessionRecord :=
  { id := some "s1", image := some "python", status := some "running",
    cwd := some "/workspace", created_at := some "2025-01-01T00:00:00Z",
    expires_at := some "2025-01-02T00:00:00Z" }

/-- The same record with every optional field present. -/
def fullRecord : SessionRecord :=
  { minimalRecord with
    container_id := some "cont-123",
    last_activity := some "2025-01-01T12:00:00Z", workspace_id := some "ws-abc" }

/-- C1: the code does not accept the bare-array response shape.  On a bare
JSON array `list_sessions` calls `data.get("sessions", [])` on a Python
`list` and raises `AttributeError`, while the same records wrapped in a
`sessions` object decode to a `SessionInfo` list — the two shapes do not
produce the same normalized result. -/
theorem list_sessions_bare_array_raises :
    list_sessions_decode (.arr [fullRecord])
      = Except.error (.attributeError "list object has no attribute get")
    ∧ list_sessions_decode (.obj (some [fullRecord]))
      = Except.ok [{ id := "s1", image := "python", status := "running",
                     cwd := "/workspace", created_at := "2025-01-01T00:00:00Z",
                     expires_at := "2025-01-02T00:00:00Z",
                     container_id := some "cont-123",
                     last_activity := some "2025-01-01T12:00:00Z" }] :=
  ⟨rfl, rfl⟩

/-- C2: on a record without `container_id`, the per-record decode of
`list_sessions` raises `KeyError("container_id")` instead of decoding to an
unset value, while `_parse_session_info` decodes the same record with every
optional field `none`; moreover `_parse_session_info` maps a present-but-empty
`workspace_id` to the same unset value as an absent one. -/
theorem optional_fields_decode_divergence :
    list_sessions_decode (.obj (some [minimalRecord]))
      = Except.error (.keyError "container_id")
    ∧ _parse_session_info minimalRecord
      = Except.ok { id := "s1", image := "python", status := "running",
                    cwd := "/workspace", created_at := "2025-01-01T00:00:00Z",
                    expires_at := "2025-01-02T00:00:00Z" }
    ∧ _parse_session_info { minimalRecord with workspace_id := some "" }
      = _parse_session_info minimalRecord :=
  ⟨rfl, rfl, rfl⟩

/-- C3 counterexample: on a 404 response, `create_session` raises
`httpx.HTTPStatusError` (from `resp.raise_for_status()`), which is not a
member of the SDK's typed exception hierarchy of `exceptions.py`. -/
theorem create_session_error_outside_sdk_hierarchy :
    (create_session "python" none none 404 "session not found" {}).2
      = Except.error (.httpStatusError 404 "session not found")
    ∧ PyErr.isSandkastenError (.httpStatusError 404 "session not found") = false :=
  ⟨rfl, rfl⟩

/-- C3 amended: on any response with status ≥ 400, every modelled operation
(`create_session`, `list_sessions`, `Session.read`, the upload POST) raises
`httpx.HTTPStatusError` carrying the HTTP status code and the raw response
body verbatim; the failure is never caught or replaced by a success. -/
theorem api_error_exposes_status_and_body (s : Nat) (b : String) (h : 400 ≤ s)
    (image : String) (ttl : Option Int) (ws : Option String) (json : SessionRecord)
    (sjson : SessionsJson) (p : String) (mb : Option Nat)
    (rp rcb : Option String) (rtr : Option Bool) (paths : Option (List String)) :
    (create_session image ttl ws s b json).2 = Except.error (.httpStatusError s b)
    ∧ list_sessions_run s b sjson = Except.error (.httpStatusError s b)
    ∧ (session_read p mb
        { status := s, body := b, path := rp,
          content_base64 := rcb, truncated := rtr }).2 = Except.error (.httpStatusError s b)
    ∧ uploadNetwork (.resp s b paths) = Except.error (.httpStatusError s b) := by
  have hrs : raiseForStatus s b = Except.error (.httpStatusError s b) := by
    rw [raiseForStatus, if_neg]
    omega
  refine ⟨?_, ?_, ?_, ?_⟩ <;>
    simp only [create_session, list_sessions_run, session_read, uploadNetwork, hrs] <;> rfl

/-- C3 witness: the amended claim at a concrete 404 response. -/
theorem api_error_exposes_status_and_body_witness :
    (create_session "python" none none 404 "session not found" {}).2
      = Except.error (.httpStatusError 404 "session not found")
    ∧ list_sessions_run 404 "session not found" (.obj none)
      = Except.error (.httpStatusError 404 "session not found")
    ∧ (session_read "/workspace/x" none { status := 404, body := "session not found" }).2
      = Except.error (.httpStatusError 404 "session not found")
    ∧ uploadNetwork (.resp 404 "session not found" none)
      = Except.error (.httpStatusError 404 "session not found") :=
  api_error_exposes_status_and_body 404 "session not found" (by decide)
    "python" none none {} (.obj none) "/workspace/x" none none none none none

/-- C6: a file-like upload input with no intrinsic `name` attribute and no
explicit `filename` argument raises `ValueError` and the filesystem trace
contains no POST: the usage error precedes any network activity. -/
theorem upload_unnamed_stream_value_error (net : NetOutcome) :
    upload (.fileLike none) none net
      = (Except.error (.valueError "filename required when uploading file-like object"), [])
    ∧ ((upload (.fileLike none) none net).2.any FsEvent.isPost) = false :=
  ⟨rfl, rfl⟩

/-- C9: whatever the input and however the network exchange ends, every file
handle `upload` itself opened has been closed when the call returns — the
`finally` clause closes `to_close` on every exit path. -/
theorem upload_closes_opened_handles (file : UploadFile) (filename : Option String)
    (net : NetOutcome) :
    handlesClosed (upload file filename net).2 = true := by
  obtain nameAttr | ⟨p, isFile⟩ := file
  · cases hname : pyTruthy (pyOr filename nameAttr) <;>
      simp [upload, uploadBody, hname, handlesClosed]
  · cases isFile <;> simp [upload, uploadBody, handlesClosed, List.contains]

/-- C8: the `create_session` request body has a `ttl_seconds` key iff the
`ttl_seconds` argument is not `None`, a `workspace_id` key iff the
`workspace_id` argument is not `None`, and no key of the body is ever the
explicit JSON `null`. -/
theorem create_session_payload_optional_fields (image : String) (ttl_seconds : Option Int)
    (workspace_id : Option String) :
    hasKey (createSessionPayload image ttl_seconds workspace_id) "ttl_seconds"
        = ttl_seconds.isSome
    ∧ hasKey (createSessionPayload image ttl_seconds workspace_id) "workspace_id"
        = workspace_id.isSome
    ∧ (createSessionPayload image ttl_seconds workspace_id).all (fun kv => !kv.2.isNull)
        = true := by
  obtain _ | t := ttl_seconds <;> obtain _ | w := workspace_id <;>
    simp [createSessionPayload, hasKey, JVal.isNull]

/-- C10: a `data:` line whose tracked event type is not `chunk`, `done` or
`error` — including one arriving before any `event:` line, when the tracked
type is still the initial `""` — yields no chunk, raises nothing and leaves
the parser state unchanged: the frame is silently skipped. -/
theorem unknown_event_type_data_skipped (t : String) (p : JPayload) (rest : List SSELine)
    (h1 : t ≠ "chunk") (h2 : t ≠ "done") (h3 : t ≠ "error") :
    execStreamStep t (.data p) = (t, [], none)
    ∧ execStreamLoop t (.data p :: rest) = execStreamLoop t rest
    ∧ exec_stream (.data p :: rest) = exec_stream rest := by
  have hstep : execStreamStep t (.data p) = (t, [], none) := by
    simp [execStreamStep, h1, h2, h3]
  have h0 : execStreamStep "" (.data p) = ("", [], none) := by
    simp [execStreamStep]
  refine ⟨hstep, ?_, ?_⟩
  · simp [execStreamLoop, hstep]
  · simp [exec_stream, execStreamLoop, h0]

/-- C10 witness: a `data:` frame under an unrecognized event type `status`,
and one arriving before any `event:` line, are both skipped. -/
theorem unknown_event_type_data_skipped_witness :
    execStreamStep "status" (.data {}) = ("status", [], none)
    ∧ execStreamLoop "status" (.data {} :: []) = execStreamLoop "status" []
    ∧ exec_stream (.data {} :: []) = exec_stream [] :=
  unknown_event_type_data_skipped "status" {} []
    (by decide) (by decide) (by decide)

/-- C4: on the SSE transcript `chunk, chunk, done`, `exec_stream` yields
exactly three chunks: two intermediate ones carrying each chunk event's
`chunk` text and `timestamp`, with `done=false`, and a terminal one with
`done=true`, empty output, and the done event's `exit_code`, `cwd` and
`duration_ms`. -/
theorem exec_stream_chunk_chunk_done (p1 p2 p3 : JPayload)
    (o1 o2 : String) (t1 t2 : Int) (ec : Int) (cw : String) (dm : Int)
    (h1 : p1.chunk = some o1) (h1t : p1.timestamp = some t1)
    (h2 : p2.chunk = some o2) (h2t : p2.timestamp = some t2)
    (h3 : p3.exit_code = some ec) (h3c : p3.cwd = some cw)
    (h3d : p3.duration_ms = some dm) :
    exec_stream [.event "chunk", .data p1, .blank, .event "chunk", .data p2, .blank,
                 .event "done", .data p3, .blank]
      = ([{ output := o1, timestamp := t1, done := false },
          { output := o2, timestamp := t2, done := false },
          { output := "", timestamp := 0, done := true, exit_code := ec, cwd := cw,
            duration_ms := dm }], none) := by
  simp [exec_stream, execStreamLoop, execStreamStep, h1, h1t, h2, h2t, h3, h3c, h3d]

/-- C4 witness: the transcript
`event: chunk / data: {chunk: "a", timestamp: 1}`,
`event: chunk / data: {chunk: "b", timestamp: 2}`,
`event: done / data: {exit_code: 0, cwd: "/workspace", duration_ms: 50}`
yields exactly the three chunks. -/
theorem exec_stream_chunk_chunk_done_witness :
    exec_stream [.event "chunk", .data { chunk := some "a", timestamp := some 1 },
                 .blank, .event "chunk", .data { chunk := some "b", timestamp := some 2 },
                 .blank, .event "done",
                 .data { exit_code := some 0, cwd := some "/workspace",
                         duration_ms := some 50 }, .blank]
      = ([{ output := "a", timestamp := 1, done := false },
          { output := "b", timestamp := 2, done := false },
          { output := "", timestamp := 0, done := true, exit_code := 0,
            cwd := "/workspace", duration_ms := 50 }], none) :=
  exec_stream_chunk_chunk_done
    { chunk := some "a", timestamp := some 1 }
    { chunk := some "b", timestamp := some 2 }
    { exit_code := some 0, cwd := some "/workspace", duration_ms := some 50 }
    "a" "b" 1 2 0 "/workspace" 50 rfl rfl rfl rfl rfl rfl rfl

/-- Splitting the `exec_stream` loop at an append: when the prefix raises no
stream error, the suffix continues from the prefix's final tracked event
type, and the yielded chunks concatenate. -/
theorem execStreamLoop_append (xs ys : List SSELine) (et : String)
    (h : (execStreamLoop et xs).2 = none) :
    execStreamLoop et (xs ++ ys)
      = ((execStreamLoop et xs).1 ++ (execStreamLoop (trackEventType et xs) ys).1,
         (execStreamLoop (trackEventType et xs) ys).2) := by
  induction xs generalizing et with
  | nil => simp [execStreamLoop, trackEventType]
  | cons l rest ih =>
    rcases hs : execStreamStep et l with ⟨et', cs, err⟩
    rcases err with _ | msg
    · have h' : (execStreamLoop et' rest).2 = none := by
        simp only [execStreamLoop, hs] at h
        exact h
      simp only [List.cons_append, execStreamLoop, trackEventType, hs, List.append_eq,
        ih _ h', List.append_assoc]
    · exfalso
      simp only [execStreamLoop, hs] at h
      exact Option.noConfusion h

/-- C5: on a transcript whose prefix raises no stream error, an `error` SSE
event fails the stream with a `SandkastenStreamError` carrying the
server-supplied message of that event's payload, and the chunks yielded are
exactly those of the prefix: nothing is yielded at or after the error
event. -/
theorem exec_stream_error_event_fails (pre post : List SSELine) (p : JPayload)
    (msg : String) (hp : p.error = some msg)
    (hpre : (exec_stream pre).2 = none) :
    exec_stream (pre ++ SSELine.event "error" :: SSELine.data p :: post)
      = ((exec_stream pre).1, some msg) := by
  unfold exec_stream at hpre ⊢
  rw [execStreamLoop_append _ _ _ hpre]
  have herr : ∀ s, execStreamLoop s (SSELine.event "error" :: SSELine.data p :: post)
      = ([], some msg) := by
    intro s
    simp [execStreamLoop, execStreamStep, hp]
  rw [herr]
  simp

/-- C5 witness: the transcript `event: chunk / data: {chunk: "hi"}` followed
by `event: error / data: {error: "Command failed"}` fails with that message
and yields only the one chunk of the prefix. -/
theorem exec_stream_error_event_fails_witness :
    exec_stream ([.event "chunk", .data { chunk := some "hi", timestamp := some 1 }]
        ++ SSELine.event "error" :: SSELine.data { error := some "Command failed" } :: [])
      = ((exec_stream [.event "chunk",
            .data { chunk := some "hi", timestamp := some 1 }]).1,
          some "Command failed") :=
  exec_stream_error_event_fails
    [.event "chunk", .data { chunk := some "hi", timestamp := some 1 }] []
    { error := some "Command failed" } "Command failed" rfl rfl

/-- The alphabet lookup inverts the alphabet encoding on six-bit values. -/
theorem charSextet_sextetChar : ∀ n, n < 64 → charSextet (sextetChar n) = some n := by
  decide

/-- No alphabet character is the padding character. -/
theorem sextetChar_ne_pad : ∀ n, n < 64 → ¬(sextetChar n = '=') := by
  decide

/-- The base64 decoder inverts the encoder on byte sequences. -/
theorem b64_chunks_roundtrip : ∀ bs : List Nat, (∀ x ∈ bs, x < 256) →
    b64DecodeChunks (b64EncodeChunks bs) = some bs
  | [], _ => rfl
  | [a], h => by
    have ha : a < 256 := h a (by simp)
    have e1 := charSextet_sextetChar (a / 4) (by omega)
    have e2 := charSextet_sextetChar (a % 4 * 16) (by omega)
    simp [b64EncodeChunks, b64DecodeChunks, e1, e2]
    omega
  | [a, b], h => by
    have ha : a < 256 := h a (by simp)
    have hb : b < 256 := h b (by simp)
    have e1 := charSextet_sextetChar (a / 4) (by omega)
    have e2 := charSextet_sextetChar (a % 4 * 16 + b / 16) (by omega)
    have e3 := charSextet_sextetChar (b % 16 * 4) (by omega)
    have n3 := sextetChar_ne_pad (b % 16 * 4) (by omega)
    simp [b64EncodeChunks, b64DecodeChunks, e1, e2, e3, n3]
    omega
  | a :: b :: c :: rest, h => by
    have ha : a < 256 := h a (by simp)
    have hb : b < 256 := h b (by simp)
    have hc : c < 256 := h c (by simp)
    have ih := b64_chunks_roundtrip rest (fun x hx => h x (by simp [hx]))
    have e1 := charSextet_sextetChar (a / 4) (by omega)
    have e2 := charSextet_sextetChar (a % 4 * 16 + b / 16) (by omega)
    have e3 := charSextet_sextetChar (b % 16 * 4 + c / 64) (by omega)
    have e4 := charSextet_sextetChar (c % 64) (by omega)
    have n3 := sextetChar_ne_pad (b % 16 * 4 + c / 64) (by omega)
    have n4 := sextetChar_ne_pad (c % 64) (by omega)
    simp [b64EncodeChunks, b64DecodeChunks, e1, e2, e3, e4, n3, n4, ih]
    omega

/-- The character data of a string literal built from a character list. -/
theorem string_data_mk (l : List Char) : (String.mk l).data = l := rfl

/-- Reduction of `Except` bind on a success value. -/
theorem except_ok_bind {ε α β : Type} (a : α) (f : α → Except ε β) :
    (Except.ok (ε := ε) a >>= f) = f a := rfl

/-- C7: writing bytes `b` with `Session.write` (UTF-8 for text, then base64,
here on the bytes branch) and reading them back with `Session.read` and no
`max_bytes` cap, against a server that returns the stored base64 content
unchanged, yields exactly `b`: the read-side base64 decoding inverts the
write-side encoding. -/
theorem write_read_roundtrip_bytes (p : String) (b : List Nat)
    (h : ∀ x ∈ b, x < 256) :
    write_read_roundtrip p b
      = Except.ok { content := b, path := p, truncated := false } := by
  have hb : b64decode (b64encode b) = some b := by
    simp only [b64decode, b64encode, string_data_mk]
    exact b64_chunks_roundtrip b h
  simp [write_read_roundtrip, session_write, session_read, contentBytes, getItem,
    raiseForStatus, except_ok_bind, hb]

/-- C7 witness: the bytes `[104, 105, 0, 255]` survive the write/read round
trip unchanged. -/
theorem write_read_roundtrip_bytes_witness :
    write_read_roundtrip "/workspace/out.bin" [104, 105, 0, 255]
      = Except.ok { content := [104, 105, 0, 255], path := "/workspace/out.bin",
                    truncated := false } :=
  write_read_roundtrip_bytes "/workspace/out.bin" [104, 105, 0, 255] (by decide)

end Sandkasten
